import Mathlib

/-!
Shallow embedding of the lead-management data-access modules: the leads,
sales-rep, analytics and website-url-activity services.  The backend record
store is modelled by the response envelopes the services receive; the service
functions themselves are translated into pure Lean functions over those
envelopes.  JavaScript falsiness on strings (`undefined`, `null` and `""` are
falsy) is modelled by `Option String` with `some ""` the present-but-empty
value; numeric fields use `Option Int` with `some 0` the present zero.  Dates
are modelled at day granularity by integers (a day index), and ISO timestamp
strings appear only where the code treats them opaquely.  Console logging is a
side effect outside the embedding; throwing is modelled by `Except`.
-/

/-- JavaScript `a || d` for a string-valued field: the default replaces a
missing (`none`) or empty (falsy) string. -/
def jsOrStr (a : Option String) (d : String) : String :=
  match a with
  | none => d
  | some s => if s = "" then d else s

/-- JavaScript `a || d` for a number-valued field: the default replaces a
missing value or a (falsy) zero. -/
def jsOrInt (a : Option Int) (d : Int) : Int :=
  match a with
  | none => d
  | some n => if n = 0 then d else n

/-- JavaScript `a || b` where both sides are possibly-missing strings. -/
def jsOrOpt (a b : Option String) : Option String :=
  match a with
  | none => b
  | some s => if s = "" then b else some s

/-- JavaScript `a || null` for a string field: a falsy value becomes `null`. -/
def jsOrNull (a : Option String) : Option String :=
  match a with
  | none => none
  | some s => if s = "" then none else some s

/-- JavaScript `Math.round`: round half towards positive infinity. -/
def jsRound (q : ℚ) : Int := ⌊q + 1 / 2⌋

/-- JavaScript `toLowerCase`, character by character (kernel-reducible form
over the string's character list). -/
def jsToLower (s : String) : String := String.mk (s.data.map Char.toLower)

/-- JavaScript `endsWith('/')` / the regex `\/$`: the last character is a
slash. -/
def jsEndsWithSlash (s : String) : Bool := s.data.getLast? == some '/'

/-- Drop the last character (JavaScript `slice(0, -1)` / stripping the match
of `\/$`). -/
def jsDropLast (s : String) : String := String.mk (s.data.dropLast)

/-- JavaScript `trim`: strip whitespace from both ends. -/
def jsTrim (s : String) : String :=
  String.mk
    (((s.data.dropWhile Char.isWhitespace).reverse.dropWhile
      Char.isWhitespace).reverse)

/-- The `normalizeUrl` utility of leadsService.js: lower-case the URL and strip one
trailing slash; a falsy URL normalizes to the empty string. -/
def normalizeUrl (url : Option String) : String :=
  match url with
  | none => ""
  | some u =>
      if u = "" then ""
      else
        let lower := jsToLower u
        if jsEndsWithSlash lower then jsDropLast lower else lower

/-- The `cleanWebsiteUrl` utility of websiteUrlActivityService: strip one trailing slash;
the empty string (falsy) is returned unchanged. -/
def cleanWebsiteUrl (url : String) : String :=
  if url = "" then url
  else if jsEndsWithSlash url then jsDropLast url else url

/-- The record-store fetch envelope `{success, data, message}` for a list
query; `data` is `none` when the response carries no list. -/
structure FetchResp (α : Type) where
  success : Bool
  data : Option (List α)
  message : String
  deriving Repr, DecidableEq

/-- The `added_by_c` lookup object `{Id, Name}` carried on a lead record. -/
structure AddedBy where
  Id : Int
  Name : Option String
  deriving Repr, DecidableEq

/-- A raw `lead_c` record as the record store returns it: every custom field
may be missing. -/
structure LeadRec where
  Id : Int
  website_url_c : Option String
  team_size_c : Option String
  arr_c : Option Int
  category_c : Option String
  linkedin_url_c : Option String
  status_c : Option String
  funding_type_c : Option String
  edition_c : Option String
  follow_up_date_c : Option String
  added_by_c : Option AddedBy
  created_at_c : Option String
  deriving Repr, DecidableEq

/-- The application-facing lead shape produced by the read transform of
`getLeads` / `getLeadById` / `updateLead`. -/
structure LeadView where
  Id : Int
  websiteUrl : String
  teamSize : String
  arr : Int
  category : String
  linkedinUrl : String
  status : String
  fundingType : String
  edition : String
  followUpDate : Option String
  addedBy : Option Int
  addedByName : String
  createdAt : String
  deriving Repr, DecidableEq

/-- The read transform of leadsService (lines 60-74): rename the external
fields and substitute defaults via JavaScript `||`.  `nowIso` stands for
`new Date().toISOString()`. -/
def transformLead (nowIso : String) (lead : LeadRec) : LeadView where
  Id := lead.Id
  websiteUrl := jsOrStr lead.website_url_c ""
  teamSize := jsOrStr lead.team_size_c "1-3"
  arr := jsOrInt lead.arr_c 0
  category := jsOrStr lead.category_c ""
  linkedinUrl := jsOrStr lead.linkedin_url_c ""
  status := jsOrStr lead.status_c "Keep an Eye"
  fundingType := jsOrStr lead.funding_type_c "Bootstrapped"
  edition := jsOrStr lead.edition_c "Select Edition"
  followUpDate := jsOrNull lead.follow_up_date_c
  addedBy := lead.added_by_c.map (·.Id)
  addedByName := jsOrStr (lead.added_by_c.bind (·.Name)) "Unknown"
  createdAt := jsOrStr lead.created_at_c nowIso

/-- The result shape of `getLeads`. -/
structure GetLeadsResult where
  leads : List LeadView
  deduplicationResult : Option Unit
  deriving Repr, DecidableEq

/-- Embedding of `getLeads` (leadsService.js lines 24-84): on a failed response return the
empty result, otherwise map the read transform over `response.data || []`. -/
def getLeads (nowIso : String) (resp : FetchResp LeadRec) : GetLeadsResult :=
  if resp.success then
    { leads := (resp.data.getD []).map (transformLead nowIso),
      deduplicationResult := none }
  else
    { leads := [], deduplicationResult := none }

/-- The record-store get-by-id envelope `{success, data, message}`. -/
structure GetByIdResp where
  success : Bool
  data : Option LeadRec
  message : String
  deriving Repr, DecidableEq

/-- Embedding of `getLeadById` (leadsService.js lines 85-136): a failed response (or a
success envelope with no record, whose field access would raise and be caught)
throws "Lead not found"; otherwise the read transform is applied. -/
def getLeadById (nowIso : String) (resp : GetByIdResp) : Except String LeadView :=
  if resp.success then
    match resp.data with
    | some lead => Except.ok (transformLead nowIso lead)
    | none => Except.error "Lead not found"
  else
    Except.error "Lead not found"

/-- One entry of a mutation response's `results` array. -/
structure MutResult where
  success : Bool
  message : Option String
  deriving Repr, DecidableEq

/-- A mutation (create/update/delete) response envelope. -/
structure MutResp where
  success : Bool
  message : String
  results : Option (List MutResult)
  deriving Repr, DecidableEq

/-- Embedding of `deleteLead` (leadsService.js lines 290-321): a failed response throws
`response.message`; a failed first result throws its message (or the generic
text); otherwise the deletion succeeds. -/
def deleteLead (resp : MutResp) : Except String Unit :=
  if resp.success then
    match resp.results with
    | some (r :: _) =>
        if r.success then Except.ok ()
        else Except.error (jsOrStr r.message "Failed to delete lead")
    | some [] => Except.ok ()
    | none => Except.ok ()
  else
    Except.error resp.message

/-- The outcome of `createLead`'s validation and duplicate-detection phase
(leadsService.js lines 145-162): `required` and `duplicate` are the two
thrown errors, `proceed` marks that the `createRecord` call is issued. -/
inductive CreateOutcome where
  | required
  | duplicate
  | proceed
  deriving Repr, DecidableEq

/-- The validation and duplicate-detection phase of `createLead`: throw
"Website URL is required" when `websiteUrl` is falsy or blank after trimming;
otherwise query the store for records whose `website_url_c` equals the raw
`leadData.websiteUrl` (the computed `normalizeUrl` result is not used in the
query) and throw "already exists" when any match; else issue the create.
`store` is the list of `website_url_c` values the duplicate query ranges
over. -/
def createLeadCheck (websiteUrl : Option String) (store : List String) :
    CreateOutcome :=
  match websiteUrl with
  | none => CreateOutcome.required
  | some u =>
      if jsTrim u = "" then CreateOutcome.required
      else if (store.filter (fun r => r == u)).length > 0 then
        CreateOutcome.duplicate
      else CreateOutcome.proceed

/-- A raw `sales_rep_c` record as fetched. -/
structure RepRec where
  Id : Int
  Name : Option String
  leads_contacted_c : Option Int
  meetings_booked_c : Option Int
  deals_closed_c : Option Int
  total_revenue_c : Option Int
  deriving Repr, DecidableEq

/-- The application-facing sales-rep shape of `getSalesReps`. -/
structure SalesRepView where
  Id : Int
  name : Option String
  leadsContacted : Int
  meetingsBooked : Int
  dealsClosed : Int
  totalRevenue : Int
  deriving Repr, DecidableEq

/-- The read transform of salesRepService (lines 46-53). -/
def transformRep (rep : RepRec) : SalesRepView where
  Id := rep.Id
  name := rep.Name
  leadsContacted := jsOrInt rep.leads_contacted_c 0
  meetingsBooked := jsOrInt rep.meetings_booked_c 0
  dealsClosed := jsOrInt rep.deals_closed_c 0
  totalRevenue := jsOrInt rep.total_revenue_c 0

/-- Embedding of `getSalesReps` (salesRepService.js lines 17-58): empty list on failure,
otherwise the transform mapped over `response.data || []`. -/
def getSalesReps (resp : FetchResp RepRec) : List SalesRepView :=
  if resp.success then (resp.data.getD []).map transformRep else []

/-- One step of the JavaScript counting reduce
`acc[k] = (acc[k] || 0) + 1` over an insertion-ordered object, modelled as an
association list: bump the first entry with the key, or append a fresh entry
with count 1. -/
def bumpKey : List (String × Nat) → String → List (String × Nat)
  | [], k => [(k, 1)]
  | (k', n) :: rest, k =>
      if k = k' then (k', n + 1) :: rest else (k', n) :: bumpKey rest k

/-- Count the occurrences of each key in a list, in first-seen key order. -/
def countBy (key : α → String) (xs : List α) : List (String × Nat) :=
  xs.foldl (fun acc x => bumpKey acc (key x)) []

/-- The sum of the counts held in a counting object. -/
def sumVals (m : List (String × Nat)) : Nat := (m.map (·.2)).sum

/-- A raw `lead_c` record with the fields the activity report fetches. -/
structure ActivityRec where
  Id : Int
  website_url_c : Option String
  category_c : Option String
  arr_c : Option Int
  status_c : Option String
  funding_type_c : Option String
  added_by_c : Option AddedBy
  created_at_c : Option String
  deriving Repr, DecidableEq

/-- The transformed activity row (websiteUrlActivityService lines 125-134). -/
structure ActivityView where
  Id : Int
  websiteUrl : String
  category : String
  arr : Int
  status : String
  fundingType : String
  addedByName : String
  createdAt : String
  deriving Repr, DecidableEq

/-- The activity read transform: rename, default, and clean the URL. -/
def transformActivity (nowIso : String) (r : ActivityRec) : ActivityView where
  Id := r.Id
  websiteUrl := cleanWebsiteUrl (jsOrStr r.website_url_c "")
  category := jsOrStr r.category_c ""
  arr := jsOrInt r.arr_c 0
  status := jsOrStr r.status_c ""
  fundingType := jsOrStr r.funding_type_c ""
  addedByName := jsOrStr (r.added_by_c.bind (·.Name)) "Unknown"
  createdAt := jsOrStr r.created_at_c nowIso

/-- Embedding of `getStatusSummary`: count the transformed rows by status. -/
def getStatusSummary (data : List ActivityView) : List (String × Nat) :=
  countBy (·.status) data

/-- Embedding of `getCategorySummary`: count the transformed rows by category. -/
def getCategorySummary (data : List ActivityView) : List (String × Nat) :=
  countBy (·.category) data

/-- The `summary` object of `getWebsiteUrlActivity`. -/
structure ActivitySummary where
  totalUrls : Nat
  totalArr : Int
  byStatus : List (String × Nat)
  byCategory : List (String × Nat)
  deriving Repr, DecidableEq

/-- The result of `getWebsiteUrlActivity`. -/
structure ActivityResult where
  data : List ActivityView
  summary : ActivitySummary
  deriving Repr, DecidableEq

/-- Embedding of `getWebsiteUrlActivity` (websiteUrlActivityService lines 24-157): on a
failed response the empty data/summary default; otherwise transform the
fetched rows and aggregate them. -/
def getWebsiteUrlActivity (nowIso : String) (resp : FetchResp ActivityRec) :
    ActivityResult :=
  if resp.success then
    let tl := (resp.data.getD []).map (transformActivity nowIso)
    { data := tl,
      summary :=
        { totalUrls := tl.length,
          totalArr := (tl.map (fun lead => jsOrInt (some lead.arr) 0)).sum,
          byStatus := getStatusSummary tl,
          byCategory := getCategorySummary tl } }
  else
    { data := [],
      summary := { totalUrls := 0, totalArr := 0, byStatus := [], byCategory := [] } }

/-- A raw lead record with the fields `getLeadsMetrics` fetches. -/
structure MetricRec where
  status_c : Option String
  category_c : Option String
  deriving Repr, DecidableEq

/-- The five per-period fetches of `getLeadsMetrics`, each already resolved to
`response.success ? response.data : []`. -/
structure MetricsInput where
  today : List MetricRec
  yesterday : List MetricRec
  week : List MetricRec
  month : List MetricRec
  allPeriod : List MetricRec
  deriving Repr, DecidableEq

/-- The result of `getLeadsMetrics`: the period counts, the today trend, and
the two distributions. -/
structure LeadsMetrics where
  todayCount : Nat
  yesterdayCount : Nat
  weekCount : Nat
  monthCount : Nat
  todayTrend : Int
  statusDistribution : List (String × Nat)
  categoryDistribution : List (String × Nat)
  totalLeads : Nat
  deriving Repr, DecidableEq

/-- Embedding of `getLeadsMetrics` (analyticsService.js lines 227-339): period counts,
`todayTrend = yesterdayCount === 0 ? 100 :
Math.round(((todayCount - yesterdayCount) / yesterdayCount) * 100)`, and the
status/category counting reduces over the all-period leads with default key
"Unknown". -/
def getLeadsMetrics (inp : MetricsInput) : LeadsMetrics where
  todayCount := inp.today.length
  yesterdayCount := inp.yesterday.length
  weekCount := inp.week.length
  monthCount := inp.month.length
  todayTrend :=
    if inp.yesterday.length = 0 then 100
    else
      jsRound ((((inp.today.length : ℚ) - (inp.yesterday.length : ℚ)) /
        (inp.yesterday.length : ℚ)) * 100)
  statusDistribution := countBy (fun l => jsOrStr l.status_c "Unknown") inp.allPeriod
  categoryDistribution :=
    countBy (fun l => jsOrStr l.category_c "Unknown") inp.allPeriod
  totalLeads := inp.allPeriod.length

/-- A raw lead record with the fields `getDailyLeadsChart` fetches; the
creation time is kept as the day index of its `created_at_c` date part,
`none` when the field is missing. -/
structure ChartLead where
  created_day : Option Int
  deriving Repr, DecidableEq

/-- One entry of the chart data: the day, its lead count, and the formatted
label. -/
structure ChartEntry where
  date : Int
  count : Nat
  formattedDate : String
  deriving Repr, DecidableEq

/-- One series of the chart. -/
structure ChartSeries where
  name : String
  data : List Nat
  deriving Repr, DecidableEq

/-- The result of `getDailyLeadsChart`. -/
structure ChartResult where
  chartData : List ChartEntry
  categories : List String
  series : List ChartSeries
  deriving Repr, DecidableEq

/-- The number of fetched leads created on day `d`. -/
def dayCount (leads : List ChartLead) (d : Int) : Nat :=
  (leads.filter (fun l => l.created_day == some d)).length

/-- Embedding of `getDailyLeadsChart` (analyticsService.js lines 152-225) on a successful
fetch: for `i = days-1` down to `0` push the entry for day `now - i`, then
project `categories` and the single series off the chart data.  `fmt` stands
for `toLocaleDateString`, `now` for the current day index. -/
def getDailyLeadsChart (fmt : Int → String) (now : Int) (days : Nat)
    (leads : List ChartLead) : ChartResult :=
  let chartData := (List.range days).map (fun (j : Nat) =>
    let d : Int := now - ((days : Int) - 1 - (j : Int))
    { date := d, count := dayCount leads d, formattedDate := fmt d : ChartEntry })
  { chartData := chartData,
    categories := chartData.map (·.formattedDate),
    series := [{ name := "New Leads", data := chartData.map (·.count) }] }

/-- A raw lead record with the fields `getUserPerformance` fetches: the
resolved `added_by` id and the day index of `created_at_c` (`none` when the
field is missing, so the date comparisons are false). -/
structure PerfLead where
  added_by : Option Int
  created_day : Option Int
  deriving Repr, DecidableEq

/-- One row of the `getUserPerformance` result. -/
structure PerfStats where
  Id : Int
  name : Option String
  leadsContacted : Int
  meetingsBooked : Int
  dealsClosed : Int
  totalRevenue : Int
  totalLeads : Nat
  todayLeads : Nat
  weekLeads : Nat
  monthLeads : Nat
  conversionRate : Option Int
  deriving Repr, DecidableEq

/-- The per-rep computation of `getUserPerformance` (analyticsService.js
lines 376-417): filter the leads to the rep, bucket them by trailing window,
and compute the conversion rate guarded by `meetings_booked_c > 0`
(`none` models the NaN produced when `deals_closed_c` is missing). -/
def repStats (nowDay : Int) (leads : List PerfLead) (rep : RepRec) : PerfStats :=
  let userLeads := leads.filter (fun l => l.added_by == some rep.Id)
  let inWindow := fun (start : Int) (l : PerfLead) =>
    match l.created_day with
    | some d => decide (start ≤ d)
    | none => false
  { Id := rep.Id
    name := rep.Name
    leadsContacted := jsOrInt rep.leads_contacted_c 0
    meetingsBooked := jsOrInt rep.meetings_booked_c 0
    dealsClosed := jsOrInt rep.deals_closed_c 0
    totalRevenue := jsOrInt rep.total_revenue_c 0
    totalLeads := userLeads.length
    todayLeads := (userLeads.filter (inWindow nowDay)).length
    weekLeads := (userLeads.filter (inWindow (nowDay - 7))).length
    monthLeads := (userLeads.filter (inWindow (nowDay - 30))).length
    conversionRate :=
      match rep.meetings_booked_c with
      | some m =>
          if 0 < m then
            match rep.deals_closed_c with
            | some d => some (jsRound (((d : ℚ) / (m : ℚ)) * 100))
            | none => none
          else some 0
      | none => some 0 }

/-- Stable insertion of `x` into a list kept in non-increasing key order:
`x` goes in front of the first element whose key is not larger. -/
def insertDescBy (key : α → Nat) (x : α) : List α → List α
  | [] => [x]
  | y :: ys => if key y ≤ key x then x :: y :: ys else y :: insertDescBy key x ys

/-- The stable descending sort `arr.sort((a, b) => key(b) - key(a))`. -/
def sortDescBy (key : α → Nat) (l : List α) : List α :=
  l.foldr (insertDescBy key) []

/-- Embedding of `getUserPerformance` (analyticsService.js lines 341-424) on successful
fetches: one `repStats` row per fetched sales rep, sorted by `totalLeads`
descending. -/
def getUserPerformance (nowDay : Int) (reps : List RepRec)
    (leads : List PerfLead) : List PerfStats :=
  sortDescBy (·.totalLeads) (reps.map (repStats nowDay leads))

/-- A sales rep as fetched by `getDailyLeadsReport` (only `Name` is
requested). -/
structure RepNameRec where
  Id : Int
  Name : String
  deriving Repr, DecidableEq

/-- A lead of today as fetched by `getDailyLeadsReport`. -/
structure TodayLead where
  Id : Int
  website_url_c : Option String
  added_by_c : Option AddedBy
  created_at_c : Option String
  deriving Repr, DecidableEq

/-- The projected lead pushed into a report group. -/
structure ReportLeadView where
  Id : Int
  websiteUrl : Option String
  createdAt : Option String
  deriving Repr, DecidableEq

/-- One group of the daily report. -/
structure RepEntry where
  salesRep : String
  salesRepId : Option Int
  leads : List ReportLeadView
  leadCount : Nat
  lowPerformance : Bool
  deriving Repr, DecidableEq

/-- The rep name a lead is grouped under: `lead.added_by_c?.Name || 'Unknown'`. -/
def leadRepName (lead : TodayLead) : String :=
  jsOrStr (lead.added_by_c.bind (·.Name)) "Unknown"

/-- The view of a lead pushed into its group. -/
def mkReportLead (lead : TodayLead) : ReportLeadView where
  Id := lead.Id
  websiteUrl := lead.website_url_c
  createdAt := lead.created_at_c

/-- JavaScript object assignment `obj[k] = v` on an insertion-ordered object
modelled as an association list: replace the first entry with the key in
place, or append a fresh entry. -/
def setKey : List (String × RepEntry) → String → RepEntry →
    List (String × RepEntry)
  | [], k, v => [(k, v)]
  | (k', v') :: rest, k, v =>
      if k = k' then (k, v) :: rest else (k', v') :: setKey rest k v

/-- JavaScript object lookup `obj[k]` on the association list. -/
def getEntry : List (String × RepEntry) → String → Option RepEntry
  | [], _ => none
  | (k', v') :: rest, k => if k = k' then some v' else getEntry rest k

/-- JavaScript `obj[k].leads.push(lv)`: append the lead to the first entry with the key. -/
def pushLeadTo : List (String × RepEntry) → String → ReportLeadView →
    List (String × RepEntry)
  | [], _, _ => []
  | (k', v') :: rest, k, lv =>
      if k = k' then (k', { v' with leads := v'.leads ++ [lv] }) :: rest
      else (k', v') :: pushLeadTo rest k lv

/-- The initialization pass of `getDailyLeadsReport` (lines 370-378): one
empty group per fetched sales rep, keyed by its `Name`. -/
def initReport (reps : List RepNameRec) : List (String × RepEntry) :=
  reps.foldl
    (fun m rep =>
      setKey m rep.Name
        { salesRep := rep.Name, salesRepId := some rep.Id, leads := [],
          leadCount := 0, lowPerformance := false })
    []

/-- The grouping pass of `getDailyLeadsReport` (lines 381-407): push the lead
into its rep's group when one exists; otherwise synthesize the `"Unknown"`
group when the lead's rep name is `"Unknown"`, and drop the lead when it
names a rep that was not fetched. -/
def addTodayLead (m : List (String × RepEntry)) (lead : TodayLead) :
    List (String × RepEntry) :=
  let repName := leadRepName lead
  let lv := mkReportLead lead
  if (getEntry m repName).isSome then pushLeadTo m repName lv
  else if repName = "Unknown" then
    m ++ [("Unknown",
      { salesRep := "Unknown", salesRepId := none, leads := [lv],
        leadCount := 0, lowPerformance := false })]
  else m

/-- The finalize pass (lines 410-413): set `leadCount` and `lowPerformance`
from the grouped leads. -/
def finalizeEntry (e : RepEntry) : RepEntry :=
  { e with leadCount := e.leads.length,
           lowPerformance := decide (e.leads.length < 5) }

/-- Embedding of `getDailyLeadsReport` (leadsService.js lines 323-421) on successful
fetches: initialize a group per rep, fold today's leads into the groups,
finalize the counts, and sort the groups by `b.leads.length - a.leads.length`
(non-increasing grouped-lead count). -/
def getDailyLeadsReport (reps : List RepNameRec) (todaysLeads : List TodayLead) :
    List RepEntry :=
  let m := todaysLeads.foldl addTodayLead (initReport reps)
  sortDescBy (fun e => e.leads.length) ((m.map (·.2)).map finalizeEntry)

/-- The sum of the groups' `leadCount` fields. -/
def sumLeadCounts (report : List RepEntry) : Nat :=
  (report.map (·.leadCount)).sum

/-- An element of the `leadsArray` input of `getFreshLeadsOnly`: the two URL
field spellings it accepts, and the day index of
`lead.createdAt || lead.created_at_c` (`none` when both are missing, so the
today filter rejects the lead). -/
structure FreshLead where
  Id : Int
  websiteUrl : Option String
  website_url_c : Option String
  createdDay : Option Int
  deriving Repr, DecidableEq

/-- The URL the freshness query matches on:
`lead.websiteUrl || lead.website_url_c`. -/
def freshLeadUrl (l : FreshLead) : Option String :=
  jsOrOpt l.websiteUrl l.website_url_c

/-- An existing store record as the freshness query sees it: its
`website_url_c` and the day index of its `created_at_c`. -/
structure StoreRec where
  url : Option String
  createdDay : Int
  deriving Repr, DecidableEq

/-- Embedding of `getFreshLeadsOnly` (leadsService.js lines 482-532) against a successful
store: keep the input leads created today, then keep those for whose URL the
store holds no record created strictly before the start of today. -/
def getFreshLeadsOnly (store : List StoreRec) (today : Int)
    (leadsArray : List FreshLead) : List FreshLead :=
  let todaysLeads := leadsArray.filter (fun l => l.createdDay == some today)
  todaysLeads.filter (fun l =>
    (store.filter (fun r =>
      r.url == freshLeadUrl l && decide (r.createdDay < today))).isEmpty)

/-! ## Helper lemmas -/

theorem sumVals_bumpKey (m : List (String × Nat)) (k : String) :
    sumVals (bumpKey m k) = sumVals m + 1 := by
  induction m with
  | nil => simp [bumpKey, sumVals]
  | cons p rest ih =>
      obtain ⟨k', n⟩ := p
      by_cases h : k = k' <;> simp [bumpKey, h, sumVals] at ih ⊢ <;> omega

theorem sumVals_countBy_aux (key : α → String) (xs : List α)
    (acc : List (String × Nat)) :
    sumVals (xs.foldl (fun acc x => bumpKey acc (key x)) acc) =
      sumVals acc + xs.length := by
  induction xs generalizing acc with
  | nil => simp
  | cons x rest ih =>
      simp only [List.foldl_cons, List.length_cons, ih, sumVals_bumpKey]
      omega

theorem sumVals_countBy (key : α → String) (xs : List α) :
    sumVals (countBy key xs) = xs.length := by
  simpa [countBy, sumVals] using sumVals_countBy_aux key xs []

theorem insertDescBy_perm (key : α → Nat) (x : α) (l : List α) :
    List.Perm (insertDescBy key x l) (x :: l) := by
  induction l with
  | nil => simp [insertDescBy]
  | cons y ys ih =>
      by_cases h : key y ≤ key x
      · simp [insertDescBy, h]
      · simp only [insertDescBy, h, if_neg, Bool.false_eq_true]
        exact (ih.cons y).trans (List.Perm.swap x y ys)

theorem insertDescBy_pairwise (key : α → Nat) (x : α) (l : List α)
    (h : l.Pairwise (fun a b => key b ≤ key a)) :
    (insertDescBy key x l).Pairwise (fun a b => key b ≤ key a) := by
  induction l with
  | nil => simp [insertDescBy]
  | cons y ys ih =>
      rw [List.pairwise_cons] at h
      by_cases hxy : key y ≤ key x
      · rw [insertDescBy, if_pos hxy]
        refine List.Pairwise.cons ?_ (List.Pairwise.cons h.1 h.2)
        intro b hb
        rcases List.mem_cons.mp hb with rfl | hb
        · exact hxy
        · exact le_trans (h.1 b hb) hxy
      · rw [insertDescBy, if_neg hxy]
        refine List.Pairwise.cons ?_ (ih h.2)
        intro b hb
        have hb' := (insertDescBy_perm key x ys).mem_iff.mp hb
        rcases List.mem_cons.mp hb' with rfl | hb'
        · exact le_of_not_le hxy
        · exact h.1 b hb'

theorem sortDescBy_perm (key : α → Nat) (l : List α) :
    List.Perm (sortDescBy key l) l := by
  induction l with
  | nil => simp [sortDescBy]
  | cons x xs ih =>
      exact (insertDescBy_perm key x _).trans (ih.cons x)

theorem sortDescBy_pairwise (key : α → Nat) (l : List α) :
    (sortDescBy key l).Pairwise (fun a b => key b ≤ key a) := by
  induction l with
  | nil => simp [sortDescBy]
  | cons x xs ih => exact insertDescBy_pairwise key x _ ih

theorem sortDescBy_length (key : α → Nat) (l : List α) :
    (sortDescBy key l).length = l.length :=
  (sortDescBy_perm key l).length_eq

/-! ## Claim theorems -/

/-- Claim C3: aggregate counts sum to the input length.  In `getLeadsMetrics`
the status and category distributions each sum to `totalLeads`; in
`getWebsiteUrlActivity` the `byStatus` and `byCategory` summaries each sum to
`summary.totalUrls`, which equals the length of the returned `data` array. -/
theorem c3_aggregate_counts_sum_to_length (inp : MetricsInput) (nowIso : String)
    (resp : FetchResp ActivityRec) :
    sumVals (getLeadsMetrics inp).statusDistribution =
        (getLeadsMetrics inp).totalLeads ∧
    sumVals (getLeadsMetrics inp).categoryDistribution =
        (getLeadsMetrics inp).totalLeads ∧
    sumVals (getWebsiteUrlActivity nowIso resp).summary.byStatus =
        (getWebsiteUrlActivity nowIso resp).summary.totalUrls ∧
    sumVals (getWebsiteUrlActivity nowIso resp).summary.byCategory =
        (getWebsiteUrlActivity nowIso resp).summary.totalUrls ∧
    (getWebsiteUrlActivity nowIso resp).summary.totalUrls =
        (getWebsiteUrlActivity nowIso resp).data.length := by
  refine ⟨?_, ?_, ?_, ?_, ?_⟩ <;>
    first
      | simp [getLeadsMetrics, sumVals_countBy]
      | (by_cases h : resp.success <;>
          simp only [getWebsiteUrlActivity, h, getStatusSummary,
            getCategorySummary, if_true, if_false, Bool.false_eq_true,
            sumVals_countBy, List.length_map]
         all_goals simp [sumVals])

/-- Claim C8: no percentage computation divides by zero.  In `getLeadsMetrics`
a zero `yesterdayCount` makes `todayTrend` the constant 100 (also when
`todayCount` is 0, as nothing here constrains `inp.today`); in the per-rep
computation of `getUserPerformance` a `meetings_booked_c` that is not greater
than 0 (missing, zero or negative) makes `conversionRate` 0. -/
theorem c8_no_division_by_zero (inp : MetricsInput) (nowDay : Int)
    (leads : List PerfLead) (rep : RepRec)
    (h1 : inp.yesterday.length = 0)
    (h2 : ∀ m, rep.meetings_booked_c = some m → m ≤ 0) :
    (getLeadsMetrics inp).todayTrend = 100 ∧
    (repStats nowDay leads rep).conversionRate = some 0 := by
  constructor
  · simp [getLeadsMetrics, h1]
  · cases hm : rep.meetings_booked_c with
    | none => simp [repStats, hm]
    | some m => simp [repStats, hm, not_lt.mpr (h2 m hm)]

/-- A metrics input with no leads in any period: `yesterdayCount = 0` and
`todayCount = 0`. -/
def metricsInputEmpty : MetricsInput := ⟨[], [], [], [], []⟩

/-- A fetched sales rep whose `meetings_booked_c` is missing. -/
def repRecNoMeetings : RepRec := ⟨1, some "Alex", none, none, none, none⟩

/-- Witness for C8 at a concrete input: empty periods and a rep with no
`meetings_booked_c`. -/
theorem c8_no_division_by_zero_witness :
    (getLeadsMetrics metricsInputEmpty).todayTrend = 100 ∧
    (repStats 0 [] repRecNoMeetings).conversionRate = some 0 :=
  c8_no_division_by_zero metricsInputEmpty 0 [] repRecNoMeetings rfl
    (fun m h => by simp [repRecNoMeetings] at h)

/-- Claim C4: `createLead` throws "Website URL is required" exactly for a
`websiteUrl` that is absent or blank after trimming; it throws the
"already exists" error exactly when the URL is non-blank and the store holds a
record whose `website_url_c` equals it; and the `createRecord` call is issued
exactly when the URL is non-blank and no such record exists (the required
check runs first, so a blank URL never reaches the duplicate check). -/
theorem c4_createLead_validation (websiteUrl : Option String)
    (store : List String) :
    (createLeadCheck websiteUrl store = CreateOutcome.required ↔
      websiteUrl = none ∨ ∃ u, websiteUrl = some u ∧ jsTrim u = "") ∧
    (createLeadCheck websiteUrl store = CreateOutcome.duplicate ↔
      ∃ u, websiteUrl = some u ∧ jsTrim u ≠ "" ∧ u ∈ store) ∧
    (createLeadCheck websiteUrl store = CreateOutcome.proceed ↔
      ∃ u, websiteUrl = some u ∧ jsTrim u ≠ "" ∧ u ∉ store) := by
  have memFilter : ∀ u : String,
      ((store.filter (fun r => r == u)).length > 0 ↔ u ∈ store) := by
    intro u
    rw [gt_iff_lt, List.length_pos, Ne, List.filter_eq_nil_iff]
    constructor
    · intro h
      by_contra hu
      exact h (fun a ha hbeq => hu (beq_iff_eq.mp hbeq ▸ ha))
    · intro hu h
      exact (h u hu) (beq_self_eq_true u)
  cases websiteUrl with
  | none => simp [createLeadCheck]
  | some u =>
      by_cases ht : jsTrim u = ""
      · simp [createLeadCheck, ht]
      · by_cases hs : u ∈ store
        · have := (memFilter u).mpr hs
          simp [createLeadCheck, ht, this, hs]
        · have : ¬ (store.filter (fun r => r == u)).length > 0 :=
            fun h => hs ((memFilter u).mp h)
          simp [createLeadCheck, ht, this, hs]

/-- Claim C2: `getFreshLeadsOnly` keeps exactly the input elements created
today whose URL the store does not hold in any record created strictly before
the start of today; an element created on an earlier day is never returned
(its `createdDay` must equal `today`). -/
theorem c2_getFreshLeadsOnly_mem (store : List StoreRec) (today : Int)
    (leadsArray : List FreshLead) (l : FreshLead) :
    l ∈ getFreshLeadsOnly store today leadsArray ↔
      l ∈ leadsArray ∧ l.createdDay = some today ∧
        ∀ r ∈ store, r.url = freshLeadUrl l → ¬ r.createdDay < today := by
  simp only [getFreshLeadsOnly, List.mem_filter, List.isEmpty_iff,
    List.filter_eq_nil_iff, beq_iff_eq, Bool.and_eq_true, decide_eq_true_eq,
    not_and, and_assoc]

/-- The duplicate decision of `createLeadCheck` is raw-string membership:
it fires exactly for a non-blank URL with an exactly-equal store record. -/
theorem createLeadCheck_duplicate_iff (w : String) (store : List String) :
    createLeadCheck (some w) store = CreateOutcome.duplicate ↔
      jsTrim w ≠ "" ∧ w ∈ store := by
  by_cases ht : jsTrim w = ""
  · simp [createLeadCheck, ht]
  · by_cases hmem : w ∈ store
    · have hfil : (store.filter (fun r => r == w)).length > 0 := by
        rw [gt_iff_lt, List.length_pos, Ne, List.filter_eq_nil_iff]
        intro h
        exact (h w hmem) (beq_self_eq_true w)
      simp [createLeadCheck, ht, hfil, hmem]
    · have hfil : ¬ (store.filter (fun r => r == w)).length > 0 := by
        rw [gt_iff_lt, List.length_pos, Ne, List.filter_eq_nil_iff, not_not]
        exact fun a ha hbeq => hmem (beq_iff_eq.mp hbeq ▸ ha)
      simp [createLeadCheck, ht, hfil, hmem]

/-- Claim C10: `createLead`'s duplicate detection compares the raw
`leadData.websiteUrl` for exact equality against `website_url_c` and never
consults the computed `normalizeUrl` value, so for any two distinct URLs that
normalize identically (differing only in letter case or a trailing slash)
neither is detected as a duplicate of the other; the last conjunct pins the
duplicate decision to raw-string membership in the store. -/
theorem c10_duplicate_detection_raw (u1 u2 : String)
    (_hnorm : normalizeUrl (some u1) = normalizeUrl (some u2))
    (hne : u1 ≠ u2) :
    createLeadCheck (some u1) [u2] ≠ CreateOutcome.duplicate ∧
    createLeadCheck (some u2) [u1] ≠ CreateOutcome.duplicate ∧
    (∀ (w : String) (store : List String),
      createLeadCheck (some w) store = CreateOutcome.duplicate ↔
        jsTrim w ≠ "" ∧ w ∈ store) := by
  refine ⟨?_, ?_, fun w store => createLeadCheck_duplicate_iff w store⟩
  · intro h
    obtain ⟨-, hmem⟩ := (createLeadCheck_duplicate_iff u1 [u2]).mp h
    exact hne (List.mem_singleton.mp hmem)
  · intro h
    obtain ⟨-, hmem⟩ := (createLeadCheck_duplicate_iff u2 [u1]).mp h
    exact hne (List.mem_singleton.mp hmem).symm

/-- Witness for C10 at the concrete pair "Example.com/" and "example.com":
both normalize to "example.com" yet neither triggers the duplicate error
against a store holding the other. -/
theorem c10_duplicate_detection_raw_witness :
    createLeadCheck (some "Example.com/") ["example.com"] ≠
        CreateOutcome.duplicate ∧
    createLeadCheck (some "example.com") ["Example.com/"] ≠
        CreateOutcome.duplicate ∧
    (∀ (w : String) (store : List String),
      createLeadCheck (some w) store = CreateOutcome.duplicate ↔
        jsTrim w ≠ "" ∧ w ∈ store) :=
  c10_duplicate_detection_raw "Example.com/" "example.com" (by decide)
    (by decide)

/-- A concrete failed get-by-id response. -/
def failedGetByIdResp : GetByIdResp :=
  { success := false, data := none, message := "Network error" }

/-- Counterexample to claim C1 as stated: `getLeadById` is a read operation
(get-by-id), yet on a failed backend response it does not return an
empty/default result - it throws "Lead not found". -/
theorem c1_counterexample_getLeadById_throws :
    failedGetByIdResp.success = false ∧
    getLeadById "2024-01-01T00:00:00.000Z" failedGetByIdResp =
      Except.error "Lead not found" := by
  exact ⟨rfl, rfl⟩

/-- Claim C1 (amended): on a backend response with `success = false`, list and
aggregate-report reads return their empty/default result (`getLeads` the empty
lead list, `getSalesReps` the empty list, `getWebsiteUrlActivity` the empty
data/summary), get-by-id reads throw a "not found" error, and mutations throw
(`deleteLead` rethrows `response.message`).  Logging is a side effect outside
the embedding. -/
theorem c1_failed_response_pattern (nowIso : String) (rL : FetchResp LeadRec)
    (rS : FetchResp RepRec) (rA : FetchResp ActivityRec) (rG : GetByIdResp)
    (rD : MutResp) (hL : rL.success = false) (hS : rS.success = false)
    (hA : rA.success = false) (hG : rG.success = false)
    (hD : rD.success = false) :
    getLeads nowIso rL = { leads := [], deduplicationResult := none } ∧
    getSalesReps rS = [] ∧
    getWebsiteUrlActivity nowIso rA =
      { data := [],
        summary :=
          { totalUrls := 0, totalArr := 0, byStatus := [], byCategory := [] } } ∧
    getLeadById nowIso rG = Except.error "Lead not found" ∧
    deleteLead rD = Except.error rD.message := by
  refine ⟨?_, ?_, ?_, ?_, ?_⟩
  · simp [getLeads, hL]
  · simp [getSalesReps, hS]
  · simp [getWebsiteUrlActivity, hA]
  · simp [getLeadById, hG]
  · simp [deleteLead, hD]

/-- A concrete failed list-fetch response over lead records. -/
def failedLeadFetch : FetchResp LeadRec :=
  { success := false, data := none, message := "Network error" }

/-- A concrete failed list-fetch response over sales-rep records. -/
def failedRepFetch : FetchResp RepRec :=
  { success := false, data := none, message := "Network error" }

/-- A concrete failed list-fetch response over activity records. -/
def failedActivityFetch : FetchResp ActivityRec :=
  { success := false, data := none, message := "Network error" }

/-- A concrete failed mutation response. -/
def failedMutResp : MutResp :=
  { success := false, message := "Record does not exist", results := none }

/-- Witness for the amended C1 at concrete failed responses. -/
theorem c1_failed_response_pattern_witness :
    getLeads "t" failedLeadFetch = { leads := [], deduplicationResult := none } ∧
    getSalesReps failedRepFetch = [] ∧
    getWebsiteUrlActivity "t" failedActivityFetch =
      { data := [],
        summary :=
          { totalUrls := 0, totalArr := 0, byStatus := [], byCategory := [] } } ∧
    getLeadById "t" failedGetByIdResp = Except.error "Lead not found" ∧
    deleteLead failedMutResp = Except.error failedMutResp.message :=
  c1_failed_response_pattern "t" failedLeadFetch failedRepFetch
    failedActivityFetch failedGetByIdResp failedMutResp rfl rfl rfl rfl rfl

/-- Claim C5: for `days >= 1`, `getDailyLeadsChart` returns exactly `days`
chart entries whose dates are strictly ascending and end on the current day;
each entry's count is the number of fetched leads created on that entry's
day, its label is the formatted date, and `categories` and `series[0].data`
are the `formattedDate` and `count` projections of the chart data in the same
order. -/
theorem c5_daily_chart_shape (fmt : Int → String) (now : Int) (days : Nat)
    (leads : List ChartLead) (h : 1 ≤ days) :
    (getDailyLeadsChart fmt now days leads).chartData.length = days ∧
    (getDailyLeadsChart fmt now days leads).chartData.map (·.date) =
      (List.range days).map (fun (j : Nat) => now + 1 + (j : Int) - (days : Int)) ∧
    ((getDailyLeadsChart fmt now days leads).chartData.map
      (·.date)).Pairwise (· < ·) ∧
    ((getDailyLeadsChart fmt now days leads).chartData.map
      (·.date)).getLast? = some now ∧
    (∀ e ∈ (getDailyLeadsChart fmt now days leads).chartData,
      e.count = dayCount leads e.date ∧ e.formattedDate = fmt e.date) ∧
    (getDailyLeadsChart fmt now days leads).categories =
      (getDailyLeadsChart fmt now days leads).chartData.map (·.formattedDate) ∧
    (getDailyLeadsChart fmt now days leads).series =
      [{ name := "New Leads",
         data := (getDailyLeadsChart fmt now days leads).chartData.map
           (·.count) }] := by
  have hmapdate : (getDailyLeadsChart fmt now days leads).chartData.map
      (·.date) =
      (List.range days).map (fun (j : Nat) => now + 1 + (j : Int) - (days : Int)) := by
    simp only [getDailyLeadsChart, List.map_map]
    refine List.map_congr_left ?_
    intro j _
    simp only [Function.comp_apply]
    omega
  refine ⟨?_, hmapdate, ?_, ?_, ?_, ?_, ?_⟩
  · simp [getDailyLeadsChart]
  · rw [hmapdate, List.pairwise_map]
    exact (List.pairwise_lt_range days).imp (by intro a b hab; omega)
  · rw [hmapdate]
    obtain ⟨k, rfl⟩ : ∃ k, days = k + 1 := ⟨days - 1, by omega⟩
    rw [List.range_succ, List.map_append, List.map_cons, List.map_nil,
      List.getLast?_concat]
    congr 1
    omega
  · intro e he
    simp only [getDailyLeadsChart, List.mem_map] at he
    obtain ⟨j, -, rfl⟩ := he
    exact ⟨rfl, rfl⟩
  · rfl
  · rfl

/-- Witness for C5 at `days = 1`: a single chart entry for the current day. -/
theorem c5_daily_chart_shape_witness :
    (getDailyLeadsChart (fun _ => "Jan 1") 0 1 []).chartData.length = 1 ∧
    ((getDailyLeadsChart (fun _ => "Jan 1") 0 1 []).chartData.map
      (·.date)).getLast? = some 0 :=
  ⟨(c5_daily_chart_shape (fun _ => "Jan 1") 0 1 [] (by decide)).1,
   (c5_daily_chart_shape (fun _ => "Jan 1") 0 1 [] (by decide)).2.2.2.1⟩

/-- Claim C6: aggregate report lists come out in non-increasing order of their
derived metric.  `getUserPerformance` is a permutation of one `repStats` row
per fetched sales rep (so it has one entry per rep) sorted by `totalLeads`
descending, and `getDailyLeadsReport` is sorted by the number of grouped
leads descending. -/
theorem c6_reports_sorted_descending (nowDay : Int) (reps : List RepRec)
    (leads : List PerfLead) (reps2 : List RepNameRec)
    (todaysLeads : List TodayLead) :
    List.Perm (getUserPerformance nowDay reps leads)
      (reps.map (repStats nowDay leads)) ∧
    (getUserPerformance nowDay reps leads).length = reps.length ∧
    (getUserPerformance nowDay reps leads).Pairwise
      (fun a b => b.totalLeads ≤ a.totalLeads) ∧
    (getDailyLeadsReport reps2 todaysLeads).Pairwise
      (fun a b => b.leads.length ≤ a.leads.length) := by
  refine ⟨sortDescBy_perm _ _, ?_, sortDescBy_pairwise _ _,
    sortDescBy_pairwise _ _⟩
  rw [getUserPerformance, sortDescBy_length, List.length_map]

/-- The amended default rule for a string field of the read transform: the
documented default is produced exactly when the external field is absent or
holds the (falsy) empty string, and any non-empty value is passed through. -/
def StringDefaultSpec (field : Option String) (dflt out : String) : Prop :=
  ((field = none ∨ field = some "") → out = dflt) ∧
  (∀ s, field = some s → s ≠ "" → out = s)

/-- The default rule for a numeric field defaulting to 0: absent becomes 0 and
any present value (including 0) is passed through. -/
def IntDefaultSpec (field : Option Int) (out : Int) : Prop :=
  (field = none → out = 0) ∧ (∀ n, field = some n → out = n)

theorem jsOrStr_stringDefaultSpec (a : Option String) (d : String) :
    StringDefaultSpec a d (jsOrStr a d) := by
  constructor
  · rintro (rfl | rfl) <;> simp [jsOrStr]
  · rintro s rfl hs
    simp [jsOrStr, hs]

theorem jsOrInt_intDefaultSpec (a : Option Int) :
    IntDefaultSpec a (jsOrInt a 0) := by
  constructor
  · rintro rfl
    simp [jsOrInt]
  · rintro n rfl
    by_cases h : n = 0 <;> simp [jsOrInt, h]

/-- A fetched lead whose `team_size_c` is present but holds the empty
string. -/
def leadRecEmptyTeamSize : LeadRec :=
  { Id := 7, website_url_c := some "https://acme.io", team_size_c := some "",
    arr_c := none, category_c := none, linkedin_url_c := none,
    status_c := none, funding_type_c := none, edition_c := none,
    follow_up_date_c := none, added_by_c := none,
    created_at_c := some "2024-01-02T00:00:00.000Z" }

/-- Counterexample to claim C7 as stated: `team_size_c` is present (it holds
`""`, not absent), yet the read transform substitutes the default "1-3", so
the default is not substituted "exactly when the external field is absent". -/
theorem c7_counterexample_present_empty_field :
    leadRecEmptyTeamSize.team_size_c = some "" ∧
    leadRecEmptyTeamSize.team_size_c ≠ none ∧
    (transformLead "2024-01-01T00:00:00.000Z" leadRecEmptyTeamSize).teamSize =
      "1-3" ∧
    ("1-3" : String) ≠ "" := by
  refine ⟨rfl, ?_, rfl, ?_⟩ <;> decide

/-- Claim C7 (amended): the read transform renames the external fields and
substitutes the documented default exactly when the external field is absent
or holds the falsy empty string (for string fields); a numeric field is
passed through whenever present (a present 0 coincides with the default), so
for the numeric fields the substitution is exactly-when-absent as claimed. -/
theorem c7_read_transform_defaults (nowIso : String) (lead : LeadRec)
    (rep : RepRec) :
    StringDefaultSpec lead.website_url_c ""
      (transformLead nowIso lead).websiteUrl ∧
    StringDefaultSpec lead.team_size_c "1-3"
      (transformLead nowIso lead).teamSize ∧
    IntDefaultSpec lead.arr_c (transformLead nowIso lead).arr ∧
    StringDefaultSpec lead.status_c "Keep an Eye"
      (transformLead nowIso lead).status ∧
    StringDefaultSpec lead.funding_type_c "Bootstrapped"
      (transformLead nowIso lead).fundingType ∧
    IntDefaultSpec rep.leads_contacted_c (transformRep rep).leadsContacted ∧
    IntDefaultSpec rep.meetings_booked_c (transformRep rep).meetingsBooked ∧
    IntDefaultSpec rep.deals_closed_c (transformRep rep).dealsClosed ∧
    IntDefaultSpec rep.total_revenue_c (transformRep rep).totalRevenue :=
  ⟨jsOrStr_stringDefaultSpec _ _, jsOrStr_stringDefaultSpec _ _,
   jsOrInt_intDefaultSpec _, jsOrStr_stringDefaultSpec _ _,
   jsOrStr_stringDefaultSpec _ _, jsOrInt_intDefaultSpec _,
   jsOrInt_intDefaultSpec _, jsOrInt_intDefaultSpec _,
   jsOrInt_intDefaultSpec _⟩

theorem mem_setKey (m : List (String × RepEntry)) (k : String) (v : RepEntry)
    (p : String × RepEntry) (hp : p ∈ setKey m k v) : p ∈ m ∨ p = (k, v) := by
  induction m with
  | nil =>
      simp only [setKey] at hp
      exact Or.inr (List.mem_singleton.mp hp)
  | cons q rest ih =>
      obtain ⟨k', v'⟩ := q
      by_cases h : k = k'
      · rw [setKey, if_pos h] at hp
        rcases List.mem_cons.mp hp with rfl | hp
        · exact Or.inr rfl
        · exact Or.inl (List.mem_cons_of_mem _ hp)
      · rw [setKey, if_neg h] at hp
        rcases List.mem_cons.mp hp with rfl | hp
        · exact Or.inl (List.mem_cons_self _ _)
        · rcases ih hp with h1 | h1
          · exact Or.inl (List.mem_cons_of_mem _ h1)
          · exact Or.inr h1

theorem mem_pushLeadTo (m : List (String × RepEntry)) (k : String)
    (lv : ReportLeadView) (p : String × RepEntry)
    (hp : p ∈ pushLeadTo m k lv) :
    p ∈ m ∨ ∃ q ∈ m, p = (q.1, { q.2 with leads := q.2.leads ++ [lv] }) := by
  induction m with
  | nil => simp [pushLeadTo] at hp
  | cons q rest ih =>
      obtain ⟨k', v'⟩ := q
      by_cases h : k = k'
      · rw [pushLeadTo, if_pos h] at hp
        rcases List.mem_cons.mp hp with rfl | hp
        · exact Or.inr ⟨(k', v'), List.mem_cons_self _ _, rfl⟩
        · exact Or.inl (List.mem_cons_of_mem _ hp)
      · rw [pushLeadTo, if_neg h] at hp
        rcases List.mem_cons.mp hp with rfl | hp
        · exact Or.inl (List.mem_cons_self _ _)
        · rcases ih hp with h1 | ⟨q1, hq1, h2⟩
          · exact Or.inl (List.mem_cons_of_mem _ h1)
          · exact Or.inr ⟨q1, List.mem_cons_of_mem _ hq1, h2⟩

theorem pushLeadTo_leads (m : List (String × RepEntry)) (k : String)
    (lv : ReportLeadView) (p : String × RepEntry) (x : ReportLeadView)
    (hp : p ∈ pushLeadTo m k lv) (hx : x ∈ p.2.leads) :
    (∃ q ∈ m, x ∈ q.2.leads) ∨ x = lv := by
  rcases mem_pushLeadTo m k lv p hp with h | ⟨q, hq, rfl⟩
  · exact Or.inl ⟨p, h, hx⟩
  · rcases List.mem_append.mp hx with hx1 | hx1
    · exact Or.inl ⟨q, hq, hx1⟩
    · exact Or.inr (List.mem_singleton.mp hx1)

theorem getEntry_isSome_mem (m : List (String × RepEntry)) (k : String)
    (h : (getEntry m k).isSome) : ∃ p ∈ m, p.1 = k := by
  induction m with
  | nil => simp [getEntry] at h
  | cons q rest ih =>
      obtain ⟨k', v'⟩ := q
      by_cases hk : k = k'
      · exact ⟨(k', v'), List.mem_cons_self _ _, hk.symm⟩
      · rw [getEntry, if_neg hk] at h
        obtain ⟨p, hp, hpk⟩ := ih h
        exact ⟨p, List.mem_cons_of_mem _ hp, hpk⟩

/-- Keys of the report map are fetched rep names or the synthesized
"Unknown". -/
def ReportKeyOk (reps : List RepNameRec) (m : List (String × RepEntry)) :
    Prop :=
  ∀ p ∈ m, p.1 = "Unknown" ∨ ∃ rep ∈ reps, rep.Name = p.1

/-- Every grouped lead view stems from one of today's leads whose rep name is
"Unknown" or the name of a fetched rep. -/
def ReportLeadsOk (reps : List RepNameRec) (todaysLeads : List TodayLead)
    (m : List (String × RepEntry)) : Prop :=
  ∀ p ∈ m, ∀ lv ∈ p.2.leads,
    ∃ l ∈ todaysLeads, mkReportLead l = lv ∧
      (leadRepName l = "Unknown" ∨ ∃ rep ∈ reps, rep.Name = leadRepName l)

theorem foldl_setKey_keyOk (reps reps₁ : List RepNameRec)
    (acc : List (String × RepEntry)) (hsub : ∀ rep ∈ reps₁, rep ∈ reps)
    (hacc : ReportKeyOk reps acc) :
    ReportKeyOk reps
      (reps₁.foldl
        (fun m rep =>
          setKey m rep.Name
            { salesRep := rep.Name, salesRepId := some rep.Id, leads := [],
              leadCount := 0, lowPerformance := false })
        acc) := by
  induction reps₁ generalizing acc with
  | nil => exact hacc
  | cons r rest ih =>
      refine ih _ (fun rep h => hsub rep (List.mem_cons_of_mem _ h)) ?_
      intro p hp
      rcases mem_setKey _ _ _ _ hp with h | rfl
      · exact hacc p h
      · exact Or.inr ⟨r, hsub r (List.mem_cons_self _ _), rfl⟩

theorem foldl_setKey_leadsOk (reps reps₁ : List RepNameRec)
    (todaysLeads : List TodayLead) (acc : List (String × RepEntry))
    (hacc : ReportLeadsOk reps todaysLeads acc) :
    ReportLeadsOk reps todaysLeads
      (reps₁.foldl
        (fun m rep =>
          setKey m rep.Name
            { salesRep := rep.Name, salesRepId := some rep.Id, leads := [],
              leadCount := 0, lowPerformance := false })
        acc) := by
  induction reps₁ generalizing acc with
  | nil => exact hacc
  | cons r rest ih =>
      refine ih _ ?_
      intro p hp lv hlv
      rcases mem_setKey _ _ _ _ hp with h | rfl
      · exact hacc p h lv hlv
      · simp at hlv

theorem initReport_keyOk (reps : List RepNameRec) :
    ReportKeyOk reps (initReport reps) :=
  foldl_setKey_keyOk reps reps [] (fun _ h => h) (fun p hp => absurd hp
    (List.not_mem_nil p))

theorem initReport_leadsOk (reps : List RepNameRec)
    (todaysLeads : List TodayLead) :
    ReportLeadsOk reps todaysLeads (initReport reps) :=
  foldl_setKey_leadsOk reps reps todaysLeads [] (fun p hp => absurd hp
    (List.not_mem_nil p))

theorem addTodayLead_keyOk (reps : List RepNameRec)
    (m : List (String × RepEntry)) (lead : TodayLead)
    (h : ReportKeyOk reps m) : ReportKeyOk reps (addTodayLead m lead) := by
  intro p hp
  simp only [addTodayLead] at hp
  split at hp
  · rcases mem_pushLeadTo _ _ _ _ hp with h1 | ⟨q, hq, rfl⟩
    · exact h p h1
    · exact h q hq
  · split at hp
    · rcases List.mem_append.mp hp with h1 | h1
      · exact h p h1
      · rcases List.mem_singleton.mp h1 with rfl
        exact Or.inl rfl
    · exact h p hp

theorem addTodayLead_leadsOk (reps : List RepNameRec)
    (todaysLeads : List TodayLead) (m : List (String × RepEntry))
    (lead : TodayLead) (hl : lead ∈ todaysLeads) (hkey : ReportKeyOk reps m)
    (h : ReportLeadsOk reps todaysLeads m) :
    ReportLeadsOk reps todaysLeads (addTodayLead m lead) := by
  intro p hp lv hlv
  simp only [addTodayLead] at hp
  split at hp
  case isTrue hg =>
    rcases pushLeadTo_leads _ _ _ _ _ hp hlv with ⟨q, hq, hx⟩ | rfl
    · exact h q hq lv hx
    · refine ⟨lead, hl, rfl, ?_⟩
      obtain ⟨q, hq, hqk⟩ := getEntry_isSome_mem m (leadRepName lead) hg
      rcases hkey q hq with h1 | ⟨rep, hrep, hname⟩
      · exact Or.inl (hqk.symm.trans h1)
      · exact Or.inr ⟨rep, hrep, hname.trans hqk⟩
  case isFalse hg =>
    split at hp
    case isTrue hu =>
      rcases List.mem_append.mp hp with h1 | h1
      · exact h p h1 lv hlv
      · rcases List.mem_singleton.mp h1 with rfl
        rcases List.mem_singleton.mp hlv with rfl
        exact ⟨lead, hl, rfl, Or.inl hu⟩
    case isFalse => exact h p hp lv hlv

theorem foldl_addTodayLead_ok (reps : List RepNameRec)
    (todaysLeads ws : List TodayLead) (hws : ∀ w ∈ ws, w ∈ todaysLeads)
    (m : List (String × RepEntry)) (hkey : ReportKeyOk reps m)
    (h : ReportLeadsOk reps todaysLeads m) :
    ReportKeyOk reps (ws.foldl addTodayLead m) ∧
    ReportLeadsOk reps todaysLeads (ws.foldl addTodayLead m) := by
  induction ws generalizing m with
  | nil => exact ⟨hkey, h⟩
  | cons w rest ih =>
      exact ih (fun x hx => hws x (List.mem_cons_of_mem _ hx)) _
        (addTodayLead_keyOk _ _ _ hkey)
        (addTodayLead_leadsOk _ _ _ _ (hws w (List.mem_cons_self _ _)) hkey h)

/-- A today's lead whose rep name "Alice" matches no fetched sales rep. -/
def aliceLead : TodayLead :=
  { Id := 1, website_url_c := some "https://alpha.io",
    added_by_c := some { Id := 5, Name := some "Alice" },
    created_at_c := some "2024-01-02T09:00:00.000Z" }

/-- Claim C9: a lead appears in the daily report only if its rep name (after
the "Unknown" default) is the Name of some fetched sales rep or is "Unknown";
and with no fetched reps a lead naming "Alice" is silently dropped, so the
sum of `leadCount` over the report (0) is strictly less than the number of
today's leads fetched (1). -/
theorem c9_unmatched_rep_leads_dropped :
    (∀ (reps : List RepNameRec) (todaysLeads : List TodayLead) (e : RepEntry)
        (lv : ReportLeadView),
      e ∈ getDailyLeadsReport reps todaysLeads → lv ∈ e.leads →
        ∃ l ∈ todaysLeads, mkReportLead l = lv ∧
          (leadRepName l = "Unknown" ∨
            ∃ rep ∈ reps, rep.Name = leadRepName l)) ∧
    sumLeadCounts (getDailyLeadsReport [] [aliceLead]) = 0 ∧
    ([aliceLead] : List TodayLead).length = 1 := by
  refine ⟨?_, by decide, rfl⟩
  intro reps todaysLeads e lv he hlv
  have hok := foldl_addTodayLead_ok reps todaysLeads todaysLeads
    (fun w hw => hw) (initReport reps) (initReport_keyOk reps)
    (initReport_leadsOk reps todaysLeads)
  simp only [getDailyLeadsReport] at he
  have he' :=
    (sortDescBy_perm (fun e => e.leads.length)
      (((todaysLeads.foldl addTodayLead (initReport reps)).map
        (·.2)).map finalizeEntry)).mem_iff.mp he
  rw [List.mem_map] at he'
  obtain ⟨e0, he0, rfl⟩ := he'
  rw [List.mem_map] at he0
  obtain ⟨p, hp, rfl⟩ := he0
  exact hok.2 p hp lv hlv
